import Mathlib

/-!
Shallow embedding of the asset-to-draw-unit pipeline of `src/main_file.cpp`
(an OpenGL OBJ viewer).  Floats are modelled as exact rationals, the global
`texCache` map and the GLState texture-name counter as an explicit state record
threaded through the calls, and the external image decoder (`stbi_load`) as
a function parameter `decode : String → Option Nat` returning the channel
count on success.  GPU texture names start at 1; the value 0 is the sentinel
"no texture" handle that `loadTex` returns on decode failure.
-/

/-- One material parsed from the MTL file (`tinyobj::material_t`): the fields
`loadOBJ` reads are `name`, `diffuse[0..2]`, `dissolve`, `diffuse_texname`. -/
structure Material where
  name : String
  diffuse : ℚ × ℚ × ℚ
  dissolve : ℚ
  diffuse_texname : String

instance : Inhabited Material :=
  ⟨{ name := "", diffuse := (0, 0, 0), dissolve := 1, diffuse_texname := "" }⟩

/-- One face-vertex index record (`tinyobj::index_t`).  `vertex_index` is
always a valid nonnegative index after parsing; `texcoord_index` is `-1`
when the vertex has no texture coordinate, which is the sign `loadOBJ`
tests. -/
structure ObjIndex where
  vertex_index : Nat
  texcoord_index : Int

instance : Inhabited ObjIndex := ⟨{ vertex_index := 0, texcoord_index := -1 }⟩

/-- The per-shape mesh data `loadOBJ` reads from `tinyobj::shape_t::mesh`. -/
structure ShapeMesh where
  num_face_vertices : List Nat
  indices : List ObjIndex
  material_ids : List Int

/-- A parsed shape (`tinyobj::shape_t`). -/
structure Shape where
  name : String
  mesh : ShapeMesh

/-- The flat attribute pool (`tinyobj::attrib_t`): `vertices` holds xyz
triples, `texcoords` holds uv pairs, both flattened. -/
structure Attrib where
  vertices : List ℚ
  texcoords : List ℚ

/-- The GLState-side state touched by `loadTex`: the `texCache` map (association
list keyed by path), the next texture name `glGenTextures` would hand out
(starting at 1, since GLState texture names are nonzero), and event logs of the
successful uploads (`glTexImage2D`) and of the decode attempts
(`stbi_load`). -/
structure GLState where
  cache : List (String × Nat)
  nextTex : Nat
  uploads : List String
  decodes : List String

/-- State at program start: empty cache, no uploads, no decode attempts. -/
def GLState.start : GLState := { cache := [], nextTex := 1, uploads := [], decodes := [] }

/-- `loadTex` from `src/main_file.cpp` lines 89–102: return the cached handle
if present; otherwise attempt to decode, returning the sentinel 0 on failure
(without caching anything), and on success upload, cache, and return a fresh
nonzero texture name. -/
def loadTex (decode : String → Option Nat) (f : String) (g : GLState) : Nat × GLState :=
  match g.cache.lookup f with
  | some id => (id, g)
  | none =>
    let g1 : GLState := { g with decodes := g.decodes ++ [f] }
    match decode f with
    | none => (0, g1)
    | some _n =>
      let id := g1.nextTex
      (id, { g1 with
              nextTex := g1.nextTex + 1
              uploads := g1.uploads ++ [f]
              cache := g1.cache ++ [(f, id)] })

/-- A draw unit (`Mesh` struct, lines 74–83).  The GPU vertex buffers
`vboPos`/`vboUV` are modelled by their uploaded contents `positions`/`uvs`. -/
structure Mesh where
  tex : Nat
  hasTex : Bool
  kd : ℚ × ℚ × ℚ
  verts : Nat
  transparent : Bool
  opacity : ℚ
  positions : List ℚ
  uvs : List ℚ

/-- The material id of a shape's first face, or -1 when the shape has no
faces (line 114). -/
def midOf (s : Shape) : Int :=
  match s.mesh.material_ids with
  | [] => -1
  | m :: _ => m

/-- The resolved material name of a shape (line 115): the name of material
`midOf s` when that id is nonnegative, else the empty string. -/
def matNameOf (M : List Material) (s : Shape) : String :=
  if 0 ≤ midOf s then (M.getD (midOf s).toNat default).name else ""

/-- One vertex's three position floats, as pushed at lines 140–142. -/
def vertPos (A : Attrib) (idx : ObjIndex) : List ℚ :=
  [A.vertices.getD (3 * idx.vertex_index) 0,
   A.vertices.getD (3 * idx.vertex_index + 1) 0,
   A.vertices.getD (3 * idx.vertex_index + 2) 0]

/-- One vertex's two uv floats, as pushed at lines 143–148: `(u, 1 - v)`
when the vertex has a texture coordinate, `(0, 0)` otherwise. -/
def vertUV (A : Attrib) (idx : ObjIndex) : List ℚ :=
  if 0 ≤ idx.texcoord_index then
    [A.texcoords.getD (2 * idx.texcoord_index.toNat) 0,
     1 - A.texcoords.getD (2 * idx.texcoord_index.toNat + 1) 0]
  else [0, 0]

/-- The inner loop at lines 138–149: push `fv` consecutive vertices starting
at `indices[off]`. -/
def pushVerts (A : Attrib) (idxs : List ObjIndex) (off fv : Nat) :
    List ℚ × List ℚ :=
  match fv with
  | 0 => ([], [])
  | n + 1 =>
    let idx := idxs.getD off default
    let rest := pushVerts A idxs (off + 1) n
    (vertPos A idx ++ rest.1, vertUV A idx ++ rest.2)

/-- The face loop at lines 136–151: each face of `fv` vertices consumes `fv`
consecutive index records, advancing the offset by `fv`. -/
def expandFaces (A : Attrib) (nfv : List Nat) (idxs : List ObjIndex)
    (off : Nat) : List ℚ × List ℚ :=
  match nfv with
  | [] => ([], [])
  | fv :: rest =>
    let fr := pushVerts A idxs off fv
    let tr := expandFaces A rest idxs (off + fv)
    (fr.1 ++ tr.1, fr.2 ++ tr.2)

/-- The body of the shape loop at lines 113–166 for one shape: `none` when
the shape is skipped by the Water filter, otherwise the built `Mesh`,
together with the updated GLState state. -/
def buildMesh (decode : String → Option Nat) (A : Attrib) (M : List Material)
    (s : Shape) (g : GLState) : Option Mesh × GLState :=
  if s.name = "Water" ∨ matNameOf M s = "water" then (none, g)
  else
    let base : Mesh :=
      { tex := 0, hasTex := false, kd := (1, 1, 1), verts := 0,
        transparent := false, opacity := 1, positions := [], uvs := [] }
    let withMat : Mesh × GLState :=
      if 0 ≤ midOf s then
        let mat := M.getD (midOf s).toNat default
        let m1 : Mesh :=
          { base with
              kd := mat.diffuse
              opacity := mat.dissolve
              transparent := decide (mat.dissolve < 0.999) }
        if mat.diffuse_texname ≠ "" then
          let r := loadTex decode mat.diffuse_texname g
          ({ m1 with tex := r.1, hasTex := true }, r.2)
        else (m1, g)
      else (base, g)
    let pu := expandFaces A s.mesh.num_face_vertices s.mesh.indices 0
    (some { withMat.1 with
              positions := pu.1
              uvs := pu.2
              verts := pu.1.length / 3 },
     withMat.2)

/-- `loadOBJ` lines 113–167 after the parse succeeded: fold the shape loop
over the parsed shape list, collecting the retained meshes in order. -/
def loadOBJ (decode : String → Option Nat) (A : Attrib) (M : List Material)
    (S : List Shape) (g : GLState) : List Mesh × GLState :=
  match S with
  | [] => ([], g)
  | s :: rest =>
    let r := buildMesh decode A M s g
    let t := loadOBJ decode A M rest r.2
    match r.1 with
    | none => t
    | some m => (m :: t.1, t.2)

/-! ## Render pipeline (lines 214–231)

The per-frame body is modelled as an event trace: the draw calls issued by
`drawMesh` and the `glDepthMask` state changes, in program order. -/

/-- One observable GPU event of the frame body: a `drawMesh` call for a
mesh, or a `glDepthMask` call. -/
inductive Ev
  | draw (m : Mesh)
  | setMask (b : Bool)

/-- The draw/depth-mask event sequence of one frame body, lines 225–228:
opaque meshes in store order, disable depth writes, transparent meshes in
store order, re-enable depth writes. -/
def frameEvents (ms : List Mesh) : List Ev :=
  ((ms.filter fun m => !m.transparent).map Ev.draw)
    ++ [Ev.setMask false]
    ++ ((ms.filter fun m => m.transparent).map Ev.draw)
    ++ [Ev.setMask true]

/-- Pair every event of a trace with the depth-write state in force when it
is issued (`b` is the state entering the trace; a `setMask` event is paired
with the state it replaces). -/
def withMask (b : Bool) : List Ev → List (Bool × Ev)
  | [] => []
  | Ev.setMask c :: r => (b, Ev.setMask c) :: withMask c r
  | Ev.draw m :: r => (b, Ev.draw m) :: withMask b r

/-! ## Camera transform (lines 212–224)

4×4 matrices over ℚ.  `glm` is the external math collaborator: its
`cos`/`sin` are abstracted as a parameter `trig : ℚ → ℚ × ℚ` returning
`(cos θ, sin θ)`, and the fixed `lookAt`/`perspective` matrices are
parameters `Vm`/`Pm`. -/

/-- 4×4 matrices over ℚ. -/
abbrev Mat4 := Matrix (Fin 4) (Fin 4) ℚ

/-- `glm::translate(mat4(1), v)`. -/
def translateM (x y z : ℚ) : Mat4 :=
  !![1, 0, 0, x; 0, 1, 0, y; 0, 0, 1, z; 0, 0, 0, 1]

/-- `glm::rotate(mat4(1), θ, vec3(1,0,0))`, given `c = cos θ`, `s = sin θ`. -/
def rotateXM (c s : ℚ) : Mat4 :=
  !![1, 0, 0, 0; 0, c, -s, 0; 0, s, c, 0; 0, 0, 0, 1]

/-- `glm::rotate(mat4(1), θ, vec3(0,1,0))`, given `c = cos θ`, `s = sin θ`. -/
def rotateYM (c s : ℚ) : Mat4 :=
  !![c, 0, s, 0; 0, 1, 0, 0; -s, 0, c, 0; 0, 0, 0, 1]

/-- The accumulated rotation angles `ax`, `ay` (globals at line 171). -/
structure CamState where
  ax : ℚ
  ay : ℚ

/-- One frame's transform computation, lines 215–222: integrate the angles
by the key-driven rates `sx`, `sy` over `dt`, then build
`M = Translate(-center) · RotateX(ax) · RotateY(ay)` and `MVP = P · V · M`.
Returns the new angle state and the MVP uploaded at line 224. -/
def frameStep (trig : ℚ → ℚ × ℚ) (Pm Vm : Mat4) (cx cy cz : ℚ)
    (st : CamState) (dt sx sy : ℚ) : CamState × Mat4 :=
  let ax := st.ax + sx * dt
  let ay := st.ay + sy * dt
  let M := translateM (-cx) (-cy) (-cz)
    * rotateXM (trig ax).1 (trig ax).2
    * rotateYM (trig ay).1 (trig ay).2
  let MVP := Pm * Vm * M
  ({ ax := ax, ay := ay }, MVP)

/-- Iterate `frameStep` over a list of per-frame inputs `(dt, sx, sy)`,
keeping the angle state (the matrices are recomputed and discarded each
frame, as in the loop). -/
def runFrames (trig : ℚ → ℚ × ℚ) (Pm Vm : Mat4) (cx cy cz : ℚ) :
    CamState → List (ℚ × ℚ × ℚ) → CamState
  | st, [] => st
  | st, (dt, sx, sy) :: rest =>
    runFrames trig Pm Vm cx cy cz
      (frameStep trig Pm Vm cx cy cz st dt sx sy).1 rest

/-! ## Spec-side definitions for the refinement claims -/

/-- The index records of one face: `fv` consecutive entries of `idxs`
starting at `off`. -/
def faceIdxs (idxs : List ObjIndex) (off fv : Nat) : List ObjIndex :=
  match fv with
  | 0 => []
  | n + 1 => idxs.getD off default :: faceIdxs idxs (off + 1) n

/-- The flat stream of expanded per-vertex index records of a shape: each
face's consecutive index records in order, replayed face after face. -/
def expandedIndices (nfv : List Nat) (idxs : List ObjIndex) (off : Nat) :
    List ObjIndex :=
  match nfv with
  | [] => []
  | fv :: rest => faceIdxs idxs off fv ++ expandedIndices rest idxs (off + fv)

/-- The stored uv pair of one expanded vertex as the spec words it: the
v-coordinate is flipped, `v' = 1 - v`, and the pair defaults to `(0,0)`
when the source vertex has no texture coordinate. -/
def specStoredUV (A : Attrib) (idx : ObjIndex) : List ℚ :=
  if 0 ≤ idx.texcoord_index then
    [A.texcoords.getD (2 * idx.texcoord_index.toNat) 0,
     1 - A.texcoords.getD (2 * idx.texcoord_index.toNat + 1) 0]
  else [0, 0]

/-- The material-derived attributes of an optional draw unit: `hasTex`,
`tex`, `kd`, `opacity`, `transparent` — everything `drawMesh` reads apart
from the geometry. -/
def matFields (o : Option Mesh) : Option (Bool × Nat × (ℚ × ℚ × ℚ) × ℚ × Bool) :=
  o.map fun m => (m.hasTex, m.tex, m.kd, m.opacity, m.transparent)

/-- Invariant of the GLState state linking the upload log to the cache: no
path has been uploaded twice, and every uploaded path is cached. -/
def UploadsInv (g : GLState) : Prop :=
  g.uploads.Nodup ∧ ∀ p ∈ g.uploads, (g.cache.lookup p).isSome

/-! ## Concrete fixtures for counterexamples and witnesses -/

/-- A decoder that fails on every path. -/
def dFail : String → Option Nat := fun _ => none

/-- A decoder that succeeds on every path with 3 channels. -/
def dOK : String → Option Nat := fun _ => some 3

/-- A material with a diffuse texture path. -/
def matT : Material :=
  { name := "glass", diffuse := (1/5, 3/10, 2/5), dissolve := 1,
    diffuse_texname := "tex.png" }

/-- A one-triangle shape using material 0. -/
def shapeT : Shape :=
  { name := "fish",
    mesh := { num_face_vertices := [3],
              indices := [⟨0, 0⟩, ⟨1, -1⟩, ⟨2, 1⟩],
              material_ids := [0] } }

/-- A small attribute pool for the fixtures. -/
def A0 : Attrib :=
  { vertices := [0, 0, 0, 1, 0, 0, 0, 1, 0],
    texcoords := [1/5, 1/5, 1/2, 3/4] }

/-- A shape named lowercase "water", with no material. -/
def shapeW : Shape :=
  { name := "water",
    mesh := { num_face_vertices := [], indices := [], material_ids := [] } }

/-- A shape with a single four-vertex face and no material. -/
def shapeQ : Shape :=
  { name := "rock",
    mesh := { num_face_vertices := [4],
              indices := [⟨0, -1⟩, ⟨1, -1⟩, ⟨2, -1⟩, ⟨0, -1⟩],
              material_ids := [] } }

/-- Like `shapeT` but with two faces whose material ids differ after the
first face, and different geometry. -/
def shapeT2 : Shape :=
  { name := "fish",
    mesh := { num_face_vertices := [3, 3],
              indices := [⟨0, -1⟩, ⟨1, -1⟩, ⟨2, -1⟩, ⟨2, -1⟩, ⟨1, -1⟩, ⟨0, -1⟩],
              material_ids := [0, 7] } }

/-! ## Helper lemmas -/

/-- Looking a key up in an appended association list when it is absent from
the first part. -/
theorem lookup_append_right (a : String) :
    ∀ (l1 l2 : List (String × Nat)), l1.lookup a = none →
      (l1 ++ l2).lookup a = l2.lookup a := by
  intro l1 l2 h
  induction l1 with
  | nil => rfl
  | cons hd tl ih =>
    obtain ⟨k, w⟩ := hd
    cases hb : (a == k) with
    | true => simp [List.lookup, hb] at h
    | false =>
      simp only [List.cons_append, List.lookup, hb] at h ⊢
      exact ih h

/-- Looking a key up in an appended association list when it is present in
the first part. -/
theorem lookup_append_left (a : String) :
    ∀ (l1 l2 : List (String × Nat)) (v : Nat), l1.lookup a = some v →
      (l1 ++ l2).lookup a = some v := by
  intro l1 l2 v h
  induction l1 with
  | nil => exact absurd h (by simp)
  | cons hd tl ih =>
    obtain ⟨k, w⟩ := hd
    cases hb : (a == k) with
    | true =>
      simp only [List.cons_append, List.lookup, hb] at h ⊢
      exact h
    | false =>
      simp only [List.cons_append, List.lookup, hb] at h ⊢
      exact ih h

/-! ## Claims -/

/-- Claim C1 (code_bug evaluation): when the diffuse texture of a retained
shape fails to decode, the import still completes and yields the draw unit,
but the code marks it `hasTex = true` with the sentinel texture handle 0 —
the sentinel is NOT treated as "untextured", so `useTexture` will be 1 at
draw time instead of falling back to the base color. -/
theorem texFail_hasTex_set :
    ((loadOBJ dFail A0 [matT] [shapeT] GLState.start).1.map
        fun m => (m.hasTex, m.tex)) = [(true, 0)] := by
  rfl

/-- Claim C3 counterexample: a shape literally named lowercase "water"
(with no material) is NOT dropped — `buildMesh` produces a draw unit for
it, contradicting the claim that a shape named "water" is also excluded. -/
theorem water_lowercase_retained :
    ((buildMesh dFail A0 [] shapeW GLState.start).1.map fun m => m.kd)
      = some (1, 1, 1) := by
  rfl

/-- Claim C3 (amended): a shape yields no draw unit exactly when its name
is literally "Water" (capitalised) or its resolved material name is
literally "water" (lowercase); the opposite spellings are retained. -/
theorem shape_excluded_iff (d : String → Option Nat) (A : Attrib)
    (M : List Material) (s : Shape) (g : GLState) :
    (buildMesh d A M s g).1 = none ↔
      (s.name = "Water" ∨ matNameOf M s = "water") := by
  unfold buildMesh
  split <;> simp_all

/-- Claim C4: for a retained shape with a material, the draw unit is
transparent exactly when the material's dissolve is strictly below 0.999;
in particular dissolve = 0.999 gives an opaque unit. -/
theorem transparent_iff_dissolve (d : String → Option Nat) (A : Attrib)
    (M : List Material) (s : Shape) (g : GLState)
    (hmid : 0 ≤ midOf s)
    (hkeep : ¬(s.name = "Water" ∨ matNameOf M s = "water")) :
    ((buildMesh d A M s g).1.map fun m => m.transparent)
      = some (decide ((M.getD (midOf s).toNat default).dissolve < 0.999)) := by
  unfold buildMesh
  rw [if_neg hkeep]
  simp only [if_pos hmid]
  split <;> rfl

/-- Witness for C4 at a concrete boundary input: the fixture material has
dissolve 1 ≥ 0.999, and the produced unit is opaque. -/
theorem transparent_iff_dissolve_witness :
    (0 ≤ midOf shapeT
      ∧ ¬(shapeT.name = "Water" ∨ matNameOf [matT] shapeT = "water"))
    ∧ ((buildMesh dOK A0 [matT] shapeT GLState.start).1.map
        fun m => m.transparent) = some false := by
  refine ⟨⟨by decide, by decide⟩, ?_⟩
  rw [transparent_iff_dissolve dOK A0 [matT] shapeT GLState.start
    (by decide) (by decide)]
  norm_num [matT, midOf, shapeT]

/-- `vertUV` always pushes exactly two floats. -/
theorem vertUV_length (A : Attrib) (idx : ObjIndex) :
    (vertUV A idx).length = 2 := by
  unfold vertUV
  split <;> rfl

/-- The inner vertex loop pushes three position floats and two uv floats
per vertex. -/
theorem pushVerts_length (A : Attrib) (idxs : List ObjIndex) :
    ∀ fv off, (pushVerts A idxs off fv).1.length = 3 * fv
      ∧ (pushVerts A idxs off fv).2.length = 2 * fv := by
  intro fv
  induction fv with
  | zero => intro off; exact ⟨rfl, rfl⟩
  | succ n ih =>
    intro off
    have h := ih (off + 1)
    constructor
    · simp only [pushVerts, List.length_append, h.1, vertPos]
      simp; ring
    · simp only [pushVerts, List.length_append, h.2,
        vertUV_length A (idxs.getD off default)]
      ring

/-- The face loop pushes three position floats and two uv floats per
expanded vertex, over the total vertex count of the shape. -/
theorem expandFaces_length (A : Attrib) (idxs : List ObjIndex) :
    ∀ (nfv : List Nat) (off : Nat),
      (expandFaces A nfv idxs off).1.length = 3 * nfv.sum
      ∧ (expandFaces A nfv idxs off).2.length = 2 * nfv.sum := by
  intro nfv
  induction nfv with
  | nil => intro off; exact ⟨rfl, rfl⟩
  | cons fv rest ih =>
    intro off
    have hp := pushVerts_length A idxs fv off
    have he := ih (off + fv)
    constructor
    · simp only [expandFaces, List.length_append, hp.1, he.1, List.sum_cons]
      ring
    · simp only [expandFaces, List.length_append, hp.2, he.2, List.sum_cons]
      ring

/-- Claim C6 counterexample: a retained shape with a single four-vertex
face yields a draw unit of 4 vertices (12 position floats, 8 uv floats) —
the vertex count is not a multiple of 3, so the claim fails for arbitrary
per-face vertex counts. -/
theorem quad_vertex_count_not_triple :
    ((buildMesh dFail A0 [] shapeQ GLState.start).1.map
        fun m => (m.positions.length, m.uvs.length, m.verts))
      = some (12, 8, 4) ∧ ¬ (3 ∣ 4) := by
  exact ⟨by rfl, by decide⟩

/-- Claim C6 (amended): for every retained shape the position and uv
buffers describe the same number of vertices (3 floats and 2 floats per
vertex respectively, both counting `num_face_vertices.sum` vertices), and
that vertex count is a multiple of 3 provided every face of the shape has
exactly three vertices (as holds when the parser triangulates). -/
theorem drawUnit_buffer_counts (d : String → Option Nat) (A : Attrib)
    (M : List Material) (s : Shape) (g : GLState)
    (hkeep : ¬(s.name = "Water" ∨ matNameOf M s = "water")) :
    ((buildMesh d A M s g).1.map fun m => (m.positions.length, m.uvs.length))
        = some (3 * s.mesh.num_face_vertices.sum,
                2 * s.mesh.num_face_vertices.sum)
      ∧ ((∀ fv ∈ s.mesh.num_face_vertices, fv = 3) →
          3 ∣ s.mesh.num_face_vertices.sum) := by
  constructor
  · have h := expandFaces_length A s.mesh.indices s.mesh.num_face_vertices 0
    unfold buildMesh
    rw [if_neg hkeep]
    simp [h.1, h.2]
  · intro h3
    have := List.sum_eq_card_nsmul s.mesh.num_face_vertices 3 h3
    rw [this]
    exact ⟨s.mesh.num_face_vertices.length, by simp [Nat.mul_comm]⟩

/-- Witness for C6 at a concrete input: the one-triangle fixture shape is
retained, its buffers hold 3 positions and 3 uvs (9 and 6 floats), and the
all-triangles hypothesis gives a vertex count divisible by 3. -/
theorem drawUnit_buffer_counts_witness :
    (¬(shapeT.name = "Water" ∨ matNameOf [matT] shapeT = "water"))
    ∧ ((buildMesh dOK A0 [matT] shapeT GLState.start).1.map
          fun m => (m.positions.length, m.uvs.length)) = some (9, 6)
    ∧ 3 ∣ shapeT.mesh.num_face_vertices.sum := by
  refine ⟨by decide, ?_, ?_⟩
  · exact (drawUnit_buffer_counts dOK A0 [matT] shapeT GLState.start
      (by decide)).1
  · exact (drawUnit_buffer_counts dOK A0 [matT] shapeT GLState.start
      (by decide)).2 (by decide)

/-- The source's per-vertex uv push agrees with the spec's description of
one stored uv pair. -/
theorem vertUV_eq_spec (A : Attrib) (idx : ObjIndex) :
    vertUV A idx = specStoredUV A idx := rfl

/-- The uv floats the inner loop pushes for one face are the concatenated
per-vertex uv pairs of that face's index records. -/
theorem pushVerts_uv_flat (A : Attrib) (idxs : List ObjIndex) :
    ∀ fv off, (pushVerts A idxs off fv).2
      = (faceIdxs idxs off fv).flatMap (vertUV A) := by
  intro fv
  induction fv with
  | zero => intro off; rfl
  | succ n ih =>
    intro off
    simp [pushVerts, faceIdxs, ih (off + 1)]

/-- The uv buffer produced by the face loop is exactly the flattened
per-expanded-vertex uv stream. -/
theorem expandFaces_uv_spec (A : Attrib) (idxs : List ObjIndex) :
    ∀ (nfv : List Nat) (off : Nat),
      (expandFaces A nfv idxs off).2
        = (expandedIndices nfv idxs off).flatMap (specStoredUV A) := by
  intro nfv
  induction nfv with
  | nil => intro off; rfl
  | cons fv rest ih =>
    intro off
    simp only [expandFaces, expandedIndices, List.flatMap_append,
      ih (off + fv), pushVerts_uv_flat A idxs fv off]
    rw [congrArg (faceIdxs idxs off fv).flatMap
      (funext fun idx => vertUV_eq_spec A idx)]

/-- Claim C7: for every retained shape, the stored uv buffer is the
concatenation, over the expanded vertices in order, of `(u, 1 - v)` when
the vertex has a source texture coordinate `(u, v)` and of `(0, 0)` when it
has none (`specStoredUV` is the spec's wording of one stored pair). -/
theorem drawUnit_uv_flip (d : String → Option Nat) (A : Attrib)
    (M : List Material) (s : Shape) (g : GLState)
    (hkeep : ¬(s.name = "Water" ∨ matNameOf M s = "water")) :
    ((buildMesh d A M s g).1.map fun m => m.uvs)
      = some ((expandedIndices s.mesh.num_face_vertices s.mesh.indices 0).flatMap
          (specStoredUV A)) := by
  unfold buildMesh
  rw [if_neg hkeep]
  simp [expandFaces_uv_spec]

/-- Witness for C7 at the concrete fixture: the one-triangle shape is
retained and its uv buffer matches the spec stream, whose middle vertex has
no texture coordinate and whose flanking vertices are flipped. -/
theorem drawUnit_uv_flip_witness :
    (¬(shapeT.name = "Water" ∨ matNameOf [matT] shapeT = "water"))
    ∧ ((buildMesh dOK A0 [matT] shapeT GLState.start).1.map fun m => m.uvs)
        = some ((expandedIndices shapeT.mesh.num_face_vertices
            shapeT.mesh.indices 0).flatMap (specStoredUV A0)) := by
  exact ⟨by decide,
    drawUnit_uv_flip dOK A0 [matT] shapeT GLState.start (by decide)⟩

/-- Every draw unit built by the shape loop satisfies the classification
invariant: its `transparent` flag is exactly `opacity < 0.999`. -/
theorem buildMesh_transparent_inv (d : String → Option Nat) (A : Attrib)
    (M : List Material) (s : Shape) (g : GLState) :
    ∀ m, (buildMesh d A M s g).1 = some m →
      m.transparent = decide (m.opacity < 0.999) := by
  intro m h
  unfold buildMesh at h
  split at h
  · simp at h
  · simp only [] at h
    split at h
    · split at h
      · simp at h
        rw [← h]
      · simp at h
        rw [← h]
    · simp at h
      rw [← h]
      have : ¬((1 : ℚ) < 0.999) := by norm_num
      simp [this]

/-- Every mesh in the imported store satisfies the classification
invariant. -/
theorem loadOBJ_transparent_inv (d : String → Option Nat) (A : Attrib)
    (M : List Material) :
    ∀ (S : List Shape) (g : GLState) m, m ∈ (loadOBJ d A M S g).1 →
      m.transparent = decide (m.opacity < 0.999) := by
  intro S
  induction S with
  | nil => intro g m h; simp [loadOBJ] at h
  | cons s rest ih =>
    intro g m h
    simp only [loadOBJ] at h
    cases hb : (buildMesh d A M s g).1 with
    | none =>
      rw [hb] at h
      exact ih _ m h
    | some m0 =>
      rw [hb] at h
      simp at h
      rcases h with h | h
      · rw [h]
        exact buildMesh_transparent_inv d A M s g m0 hb
      · exact ih _ m h

/-- A run of draw events leaves the depth-write state unchanged and is
paired with the incoming state. -/
theorem withMask_draws (b : Bool) :
    ∀ (ms : List Mesh) (rest : List Ev),
      withMask b ((ms.map Ev.draw) ++ rest)
        = (ms.map fun m => (b, Ev.draw m)) ++ withMask b rest := by
  intro ms
  induction ms with
  | nil => intro rest; rfl
  | cons m t ih =>
    intro rest
    simp [withMask, ih]

/-- Claim C2: for any imported store, the frame's event trace (each event
paired with the depth-write state in force when it is issued) is exactly —
all draw units with `opacity ≥ 0.999` in store order, each issued with
depth writes enabled; then the depth-write disable; then all draw units
with `opacity < 0.999` in store order, each issued with depth writes
disabled; then the depth-write re-enable closing the frame. -/
theorem renderPass_order (d : String → Option Nat) (A : Attrib)
    (M : List Material) (S : List Shape) (g : GLState) :
    withMask true (frameEvents (loadOBJ d A M S g).1)
      = (((loadOBJ d A M S g).1.filter fun m =>
            decide ((0.999 : ℚ) ≤ m.opacity)).map fun m => (true, Ev.draw m))
        ++ [(true, Ev.setMask false)]
        ++ (((loadOBJ d A M S g).1.filter fun m =>
            decide (m.opacity < (0.999 : ℚ))).map fun m => (false, Ev.draw m))
        ++ [(false, Ev.setMask true)] := by
  have hinv : ∀ m ∈ (loadOBJ d A M S g).1,
      m.transparent = decide (m.opacity < 0.999) :=
    fun m hm => loadOBJ_transparent_inv d A M S g m hm
  have hop : (loadOBJ d A M S g).1.filter (fun m => !m.transparent)
      = (loadOBJ d A M S g).1.filter
          (fun m => decide ((0.999 : ℚ) ≤ m.opacity)) :=
    List.filter_congr fun m hm => by
      rw [hinv m hm, ← decide_not]
      exact decide_eq_decide.mpr not_lt
  have htr : (loadOBJ d A M S g).1.filter (fun m => m.transparent)
      = (loadOBJ d A M S g).1.filter
          (fun m => decide (m.opacity < (0.999 : ℚ))) :=
    List.filter_congr fun m hm => hinv m hm
  unfold frameEvents
  rw [hop, htr]
  simp only [List.append_assoc]
  rw [withMask_draws true]
  simp [withMask, withMask_draws false]

/-- Behavioural equation of `loadTex` on a cache hit. -/
theorem loadTex_hit (d : String → Option Nat) {f : String} {g : GLState}
    {id : Nat} (hc : g.cache.lookup f = some id) :
    loadTex d f g = (id, g) := by
  unfold loadTex
  rw [hc]

/-- Behavioural equation of `loadTex` on a cache miss with decode failure:
the sentinel handle 0 is returned and only the decode-attempt log grows —
the failure is not cached. -/
theorem loadTex_fail (d : String → Option Nat) {f : String} {g : GLState}
    (hc : g.cache.lookup f = none) (hd : d f = none) :
    loadTex d f g = (0, { g with decodes := g.decodes ++ [f] }) := by
  unfold loadTex
  rw [hc, hd]

/-- Behavioural equation of `loadTex` on a cache miss with decode success:
a fresh texture name is returned and cached, and the upload is logged. -/
theorem loadTex_success (d : String → Option Nat) {f : String} {g : GLState}
    {n : Nat} (hc : g.cache.lookup f = none) (hd : d f = some n) :
    loadTex d f g =
      (g.nextTex,
       { cache := g.cache ++ [(f, g.nextTex)]
         nextTex := g.nextTex + 1
         uploads := g.uploads ++ [f]
         decodes := g.decodes ++ [f] }) := by
  unfold loadTex
  rw [hc, hd]

/-- Claim C5: resolving the same path twice returns the identical handle;
when the first resolve succeeded (nonzero handle) the second call leaves
the GL state completely unchanged (no decode, no upload, no cache write);
and the upload-log invariant — at most one upload per distinct path, every
uploaded path cached — is preserved by every call. -/
theorem resolve_cached (d : String → Option Nat) (f : String) (g : GLState)
    (hInv : UploadsInv g) :
    ((loadTex d f ((loadTex d f g).2)).1 = (loadTex d f g).1)
    ∧ ((loadTex d f g).1 ≠ 0 →
        (loadTex d f ((loadTex d f g).2)).2 = (loadTex d f g).2)
    ∧ UploadsInv (loadTex d f g).2 := by
  cases hc : g.cache.lookup f with
  | some id =>
    have h1 : loadTex d f g = (id, g) := loadTex_hit d hc
    rw [h1]
    have h2 : loadTex d f ((id, g).2) = (id, g) := loadTex_hit d hc
    rw [h2]
    exact ⟨rfl, fun _ => rfl, hInv⟩
  | none =>
    cases hd : d f with
    | none =>
      have h1 : loadTex d f g = (0, { g with decodes := g.decodes ++ [f] }) :=
        loadTex_fail d hc hd
      rw [h1]
      have h2 : loadTex d f ((0, { g with decodes := g.decodes ++ [f] }) :
            Nat × GLState).2
          = (0, { g with decodes := (g.decodes ++ [f]) ++ [f] }) :=
        loadTex_fail d hc hd
      rw [h2]
      exact ⟨rfl, fun habs => absurd rfl habs,
        ⟨hInv.1, fun p hp => hInv.2 p hp⟩⟩
    | some n =>
      have hl : (g.cache ++ [(f, g.nextTex)]).lookup f = some g.nextTex := by
        rw [lookup_append_right f g.cache _ hc]
        simp [List.lookup]
      have h1 : loadTex d f g =
          (g.nextTex,
           { cache := g.cache ++ [(f, g.nextTex)]
             nextTex := g.nextTex + 1
             uploads := g.uploads ++ [f]
             decodes := g.decodes ++ [f] }) := loadTex_success d hc hd
      rw [h1]
      have h2 : loadTex d f
          (({ cache := g.cache ++ [(f, g.nextTex)]
              nextTex := g.nextTex + 1
              uploads := g.uploads ++ [f]
              decodes := g.decodes ++ [f] } : GLState))
          = (g.nextTex,
             ({ cache := g.cache ++ [(f, g.nextTex)]
                nextTex := g.nextTex + 1
                uploads := g.uploads ++ [f]
                decodes := g.decodes ++ [f] } : GLState)) := loadTex_hit d hl
      rw [show ((g.nextTex,
           ({ cache := g.cache ++ [(f, g.nextTex)]
              nextTex := g.nextTex + 1
              uploads := g.uploads ++ [f]
              decodes := g.decodes ++ [f] } : GLState)) : Nat × GLState).2
          = ({ cache := g.cache ++ [(f, g.nextTex)]
               nextTex := g.nextTex + 1
               uploads := g.uploads ++ [f]
               decodes := g.decodes ++ [f] } : GLState) from rfl, h2]
      refine ⟨rfl, fun _ => rfl, ?_, ?_⟩
      · show (g.uploads ++ [f]).Nodup
        rw [← List.concat_eq_append]
        refine List.Nodup.concat (fun hf => ?_) hInv.1
        have hs := hInv.2 f hf
        rw [hc] at hs
        simp at hs
      · intro p hp
        rcases List.mem_append.mp hp with hp | hp
        · have hs := hInv.2 p hp
          cases hq : g.cache.lookup p with
          | none => rw [hq] at hs; simp at hs
          | some v =>
            show ((g.cache ++ [(f, g.nextTex)]).lookup p).isSome
            rw [lookup_append_left p g.cache _ v hq]
            rfl
        · simp at hp
          show ((g.cache ++ [(f, g.nextTex)]).lookup p).isSome
          rw [hp, hl]
          rfl

/-- Witness for C5 at a concrete input: from the start state, resolving
"a.png" twice with an always-succeeding decoder returns the same handle,
the second call changes nothing, and the invariant holds throughout. -/
theorem resolve_cached_witness :
    UploadsInv GLState.start
    ∧ ((loadTex dOK "a.png" ((loadTex dOK "a.png" GLState.start).2)).1
        = (loadTex dOK "a.png" GLState.start).1)
    ∧ ((loadTex dOK "a.png" ((loadTex dOK "a.png" GLState.start).2)).2
        = (loadTex dOK "a.png" GLState.start).2)
    ∧ UploadsInv (loadTex dOK "a.png" GLState.start).2 := by
  have hstart : UploadsInv GLState.start :=
    ⟨List.nodup_nil, by simp [GLState.start]⟩
  have h := resolve_cached dOK "a.png" GLState.start hstart
  exact ⟨hstart, h.1, h.2.1 (by decide), h.2.2⟩

/-- Claim C9 counterexample: with a decoder that fails on "bad.png", two
successive resolves of that path from the start state each attempt the
decode — the decode-attempt log holds the path twice, so a decode failure
IS retried by a later call, contradicting the claim. -/
theorem failed_decode_retried :
    (loadTex dFail "bad.png"
        ((loadTex dFail "bad.png" GLState.start).2)).2.decodes
      = ["bad.png", "bad.png"] := by
  rfl

/-- Claim C9 (amended): a decode failure is not cached, so a later resolve
of the same path attempts the decode again — after two resolves of a
failing uncached path the decode-attempt log has grown by two entries for
that path, and both calls return the sentinel handle 0. -/
theorem resolve_fail_reattempts (d : String → Option Nat) (f : String)
    (g : GLState) (hc : g.cache.lookup f = none) (hd : d f = none) :
    (loadTex d f ((loadTex d f g).2)).2.decodes = (g.decodes ++ [f]) ++ [f]
    ∧ (loadTex d f ((loadTex d f g).2)).1 = 0 := by
  rw [loadTex_fail d hc hd]
  rw [show ((0, { g with decodes := g.decodes ++ [f] }) :
      Nat × GLState).2 = { g with decodes := g.decodes ++ [f] } from rfl]
  rw [@loadTex_fail d f { g with decodes := g.decodes ++ [f] } hc hd]
  exact ⟨rfl, rfl⟩

/-- Witness for C9's amended theorem at the concrete failing fixture. -/
theorem resolve_fail_reattempts_witness :
    (GLState.start.cache.lookup "bad.png" = none ∧ dFail "bad.png" = none)
    ∧ ((loadTex dFail "bad.png"
          ((loadTex dFail "bad.png" GLState.start).2)).2.decodes
        = (GLState.start.decodes ++ ["bad.png"]) ++ ["bad.png"]
      ∧ (loadTex dFail "bad.png"
          ((loadTex dFail "bad.png" GLState.start).2)).1 = 0) :=
  ⟨⟨rfl, rfl⟩, resolve_fail_reattempts dFail "bad.png" GLState.start rfl rfl⟩

/-- Claim C10: the material attributes of a shape's draw unit (and the GL
state update) are determined solely by the shape's name and the material id
of its first face: two shapes agreeing on those — with arbitrary differing
geometry, attribute pools and later-face material ids — produce identical
material attributes and identical texture-cache effects. -/
theorem matFields_first_face (d : String → Option Nat) (A1 A2 : Attrib)
    (M : List Material) (g : GLState) (s1 s2 : Shape)
    (hname : s1.name = s2.name) (hmid : midOf s1 = midOf s2) :
    matFields (buildMesh d A1 M s1 g).1 = matFields (buildMesh d A2 M s2 g).1
    ∧ (buildMesh d A1 M s1 g).2 = (buildMesh d A2 M s2 g).2 := by
  have hmat : matNameOf M s1 = matNameOf M s2 := by
    unfold matNameOf
    rw [hmid]
  unfold buildMesh
  rw [hname, hmat, hmid]
  split
  · exact ⟨rfl, rfl⟩
  · exact ⟨rfl, rfl⟩

/-- Witness for C10: the fixtures `shapeT` and `shapeT2` share the name
"fish" and first-face material 0 but differ in geometry and in the second
face's material id; their material attributes and cache effects agree. -/
theorem matFields_first_face_witness :
    (shapeT.name = shapeT2.name ∧ midOf shapeT = midOf shapeT2)
    ∧ (matFields (buildMesh dOK A0 [matT] shapeT GLState.start).1
        = matFields (buildMesh dOK A0 [matT] shapeT2 GLState.start).1
      ∧ (buildMesh dOK A0 [matT] shapeT GLState.start).2
        = (buildMesh dOK A0 [matT] shapeT2 GLState.start).2) :=
  ⟨⟨rfl, rfl⟩, matFields_first_face dOK A0 A0 [matT] GLState.start
    shapeT shapeT2 rfl rfl⟩

/-- Over any run of frames the accumulated angles are the plain sums of
rate·dt contributions — no clamping, no wraparound. -/
theorem runFrames_angles (trig : ℚ → ℚ × ℚ) (Pm Vm : Mat4) (cx cy cz : ℚ) :
    ∀ (l : List (ℚ × ℚ × ℚ)) (st : CamState),
      (runFrames trig Pm Vm cx cy cz st l).ax
          = st.ax + (l.map fun t => t.2.1 * t.1).sum
      ∧ (runFrames trig Pm Vm cx cy cz st l).ay
          = st.ay + (l.map fun t => t.2.2 * t.1).sum := by
  intro l
  induction l with
  | nil => intro st; simp [runFrames]
  | cons hd tl ih =>
    intro st
    obtain ⟨dt, sx, sy⟩ := hd
    simp only [runFrames, List.map_cons, List.sum_cons]
    constructor
    · rw [(ih _).1]
      simp only [frameStep]
      ring
    · rw [(ih _).2]
      simp only [frameStep]
      ring

/-- Claim C8: each frame integrates `ax += sx·dt`, `ay += sy·dt` (and over
any run of frames the angles are the unclamped accumulated sums), and the
MVP uploaded that frame is
`Projection · View · (Translate(-center) · RotateX(ax) · RotateY(ay))`. -/
theorem computeTransform_mvp (trig : ℚ → ℚ × ℚ) (Pm Vm : Mat4)
    (cx cy cz : ℚ) (st : CamState) (dt sx sy : ℚ)
    (inputs : List (ℚ × ℚ × ℚ)) :
    (frameStep trig Pm Vm cx cy cz st dt sx sy).1.ax = st.ax + sx * dt
    ∧ (frameStep trig Pm Vm cx cy cz st dt sx sy).1.ay = st.ay + sy * dt
    ∧ (frameStep trig Pm Vm cx cy cz st dt sx sy).2
        = Pm * Vm * (translateM (-cx) (-cy) (-cz)
            * rotateXM (trig (st.ax + sx * dt)).1 (trig (st.ax + sx * dt)).2
            * rotateYM (trig (st.ay + sy * dt)).1 (trig (st.ay + sy * dt)).2)
    ∧ (runFrames trig Pm Vm cx cy cz st inputs).ax
        = st.ax + (inputs.map fun t => t.2.1 * t.1).sum
    ∧ (runFrames trig Pm Vm cx cy cz st inputs).ay
        = st.ay + (inputs.map fun t => t.2.2 * t.1).sum := by
  exact ⟨rfl, rfl, rfl,
    (runFrames_angles trig Pm Vm cx cy cz inputs st).1,
    (runFrames_angles trig Pm Vm cx cy cz inputs st).2⟩
